import Mathlib

/-!
Shallow embedding of the Sky Rebel simulation core (src/src/App.tsx).

The React component keeps its world state in `useState` hooks; one animation
frame invokes `update(time)`, which dispatches a sequence of state updates.
Functional updaters (`set(prev => ...)`) observe the latest threaded state,
while plain closure reads observe the render-time snapshot.  The embedding
makes this explicit: every phase receives the render-time snapshot `c`
(the closure) and the threaded state `st`, mirroring the dispatch order of
the source line by line.  Numbers are rationals; score is a natural number.
Randomness (`Math.random()`) is supplied by an explicit environment record.
-/

namespace SkyRebel

/-- GRAVITY = 0.4 -/
def GRAVITY : ℚ := 0.4

/-- JUMP_FORCE = -8 -/
def JUMP_FORCE : ℚ := -8

/-- GAME_SPEED_BASE = 5 -/
def GAME_SPEED_BASE : ℚ := 5

/-- PLAYER_SIZE = 40 -/
def PLAYER_SIZE : ℚ := 40

/-- OBSTACLE_WIDTH = 60 -/
def OBSTACLE_WIDTH : ℚ := 60

/-- POWERUP_SIZE = 30 -/
def POWERUP_SIZE : ℚ := 30

/-- GameState = 'START' | 'PLAYING' | 'PAUSED' | 'PHOENIX_REVIVE' | 'GAME_OVER' -/
inductive GameState
  | START
  | PLAYING
  | PAUSED
  | PHOENIX_REVIVE
  | GAME_OVER
  deriving DecidableEq

/-- Obstacle type: 'DRONE' | 'LASER' | 'STORM' | 'WIRE' -/
inductive ObstacleType
  | DRONE
  | LASER
  | STORM
  | WIRE
  deriving DecidableEq

/-- PowerUp type: 'FIRE_WINGS' | 'WIND_GLIDE' | 'SHIELD' | 'PHOENIX' -/
inductive PowerUpType
  | FIRE_WINGS
  | WIND_GLIDE
  | SHIELD
  | PHOENIX
  deriving DecidableEq

/-- Obstacle entity (interface Obstacle extends Entity). -/
structure Obstacle where
  id : String
  x : ℚ
  y : ℚ
  width : ℚ
  height : ℚ
  type : ObstacleType
  speed : ℚ
  deriving DecidableEq

/-- PowerUp entity (interface PowerUp extends Entity). -/
structure PowerUp where
  id : String
  x : ℚ
  y : ℚ
  width : ℚ
  height : ℚ
  type : PowerUpType
  deriving DecidableEq

/-- Boss entity (interface Boss extends Entity). -/
structure Boss where
  id : String
  x : ℚ
  y : ℚ
  width : ℚ
  height : ℚ
  health : ℚ
  maxHealth : ℚ
  active : Bool
  phase : ℕ
  deriving DecidableEq

/-- Particle (cosmetic; life decays from 1 to 0). -/
structure Particle where
  id : String
  x : ℚ
  y : ℚ
  vx : ℚ
  vy : ℚ
  life : ℚ
  color : String
  size : ℚ
  deriving DecidableEq

/-- Projectile entity (interface Projectile extends Entity). -/
structure Projectile where
  id : String
  x : ℚ
  y : ℚ
  width : ℚ
  height : ℚ
  vx : ℚ
  vy : ℚ
  deriving DecidableEq

/-- Challenge record. -/
structure Challenge where
  id : String
  description : String
  target : ℚ
  progress : ℚ
  completed : Bool
  rewardSkin : String
  deriving DecidableEq

/-- Viewport dimensions (window.innerWidth / window.innerHeight). -/
structure Dims where
  width : ℚ
  height : ℚ
  deriving DecidableEq

/-- Observable effect events: `createExplosion(x, y, color)` calls and the
`confetti()` call on boss defeat.  The 15 randomized particles a real
`createExplosion` also appends are cosmetic presentation data driven by
`Math.random()`; the event log records the gameplay-observable invocation. -/
inductive Effect
  | explosion (x : ℚ) (y : ℚ) (color : String)
  | confetti
  deriving DecidableEq

/-- The two `setTimeout` callbacks scheduled by the phoenix branch of
`handleDeath`: return to PLAYING after 1000ms, then clear phoenix mode
after a further 5000ms. -/
inductive TimerEvent
  | revive
  | clearPhoenix
  deriving DecidableEq

/-- The full component state: every `useState` hook plus `lastTimeRef`,
together with the ghost log of emitted effects and scheduled timeouts. -/
structure AppState where
  gameState : GameState
  score : ℕ
  highScore : ℕ
  dimensions : Dims
  playerY : ℚ
  playerVelocity : ℚ
  isPhoenixMode : Bool
  /-- activePowerUps : Record<string, number>, keyed by the four kinds. -/
  activePowerUps : PowerUpType → Option ℚ
  obstacles : List Obstacle
  powerUps : List PowerUp
  particles : List Particle
  backgroundOffset : ℚ
  boss : Option Boss
  projectiles : List Projectile
  currentSkin : String
  unlockedSkins : List String
  challenges : List Challenge
  effects : List Effect
  scheduledTimers : List (ℚ × TimerEvent)
  lastTime : Option ℚ

/-- JavaScript truthiness of a stored duration (`activePowerUps[k]` is falsy
when absent or 0). -/
def jsTruthy (v : Option ℚ) : Bool :=
  match v with
  | none => false
  | some q => decide (q ≠ 0)

/-- Truncation toward zero, as used by the JavaScript % operator. -/
def ratTrunc (q : ℚ) : ℤ :=
  if 0 ≤ q then ⌊q⌋ else ⌈q⌉

/-- JavaScript remainder: `a % b = a - b * trunc(a / b)` (sign of dividend). -/
def jsMod (a b : ℚ) : ℚ := a - b * ratTrunc (a / b)

/-- Per-frame inputs that the source draws from `Math.random()` and
`requestAnimationFrame`: the timestamp, the Bernoulli trial outcomes, the
random spawn parameters, fresh entity ids, and `Math.sin(time / 500)`. -/
structure Env where
  time : ℚ
  /-- Math.sin(time / 500), a value in [-1, 1]. -/
  sinTime : ℚ
  /-- Math.random() < 0.05 (boss shooting). -/
  bossShoot : Bool
  /-- Math.random() < 0.1 (player shooting with FIRE_WINGS). -/
  playerShoot : Bool
  /-- Math.random() < 0.02 (obstacle spawn trial). -/
  doSpawnObstacle : Bool
  /-- Math.random() < 0.005 (power-up spawn trial). -/
  doSpawnPowerUp : Bool
  obstacleType : ObstacleType
  /-- Math.random() * (height - 100) + 50 for the obstacle. -/
  obstacleY : ℚ
  powerUpType : PowerUpType
  /-- Math.random() * (height - 100) + 50 for the power-up. -/
  powerUpY : ℚ
  obstacleId : String
  powerUpId : String
  laserId : String
  projId : String

/-- `createExplosion(x, y, color)`: records the emitted effect event.  (The
source also appends 15 particles with `Math.random()`-driven velocities and
sizes; those are cosmetic data for the presentation layer.) -/
def createExplosion (x y : ℚ) (color : String) (st : AppState) : AppState :=
  { st with effects := st.effects ++ [Effect.explosion x y color] }

/-- `handleDeath()`: the death-resolution decision tree.  `c` is the
render-time closure whose `activePowerUps`, `isPhoenixMode`, `playerY`,
`score` and `highScore` the source reads; `st` is the threaded state the
dispatched setters mutate.  The phoenix branch performs
`setTimeout(..., 1000)`, recorded as a scheduled timer. -/
def handleDeath (c : AppState) (st : AppState) : AppState :=
  if jsTruthy (c.activePowerUps PowerUpType.SHIELD) then
    createExplosion 50 c.playerY "#3b82f6"
      { st with activePowerUps := fun k =>
          if k = PowerUpType.SHIELD then none else st.activePowerUps k }
  else if jsTruthy (c.activePowerUps PowerUpType.PHOENIX) || !c.isPhoenixMode then
    createExplosion 50 c.playerY "#ef4444"
      { st with gameState := GameState.PHOENIX_REVIVE,
                isPhoenixMode := true,
                scheduledTimers := st.scheduledTimers ++ [(1000, TimerEvent.revive)] }
  else
    { st with gameState := GameState.GAME_OVER,
              highScore := if c.score > c.highScore then c.score else st.highScore }

/-- The two timeout callbacks: the 1000ms one sets PLAYING and schedules the
inner 5000ms timeout; the inner one clears phoenix mode. -/
def runTimer : TimerEvent → AppState → AppState
  | TimerEvent.revive, s =>
      { s with gameState := GameState.PLAYING,
               scheduledTimers := s.scheduledTimers ++ [(5000, TimerEvent.clearPhoenix)] }
  | TimerEvent.clearPhoenix, s => { s with isPhoenixMode := false }

/-- Player integration: `setPlayerVelocity(v => v + GRAVITY * deltaTime)` then
`setPlayerY(y => ...)`.  The position candidate reads the render-time closure
`playerVelocity` from `c` (the functional velocity update dispatched just
before has not re-rendered yet). -/
def playerPhase (c : AppState) (dt : ℚ) (st : AppState) : AppState :=
  let st1 := { st with playerVelocity := st.playerVelocity + GRAVITY * dt }
  let nextY := st1.playerY + c.playerVelocity * dt
  if nextY < 0 ∨ nextY > c.dimensions.height - PLAYER_SIZE then
    handleDeath c st1
  else
    { st1 with playerY := nextY }

/-- Axis-aligned overlap of a projectile with the boss bounding box. -/
abbrev overlapBoss (p : Projectile) (b : Boss) : Prop :=
  p.x < b.x + b.width ∧ p.x + p.width > b.x ∧ p.y < b.y + b.height ∧ p.y + p.height > b.y

/-- Axis-aligned overlap of the player (x = 50, size 40, vertical position
`py` from the render-time closure) with a box at (x, y) of size (w, h). -/
abbrev overlapPlayer (py x y w h : ℚ) : Prop :=
  50 < x + w ∧ 50 + PLAYER_SIZE > x ∧ py < y + h ∧ py + PLAYER_SIZE > y

/-- One iteration of the projectile collision loop: on overlap with the
render-time boss `b`, decrement the threaded boss health by 5 (floored at 0),
emit an impact effect, and mark the projectile for removal by `p.x = 10000`. -/
def projStep (b : Boss) (acc : List Projectile × AppState) (p : Projectile) :
    List Projectile × AppState :=
  if overlapBoss p b then
    let hitBoss := acc.2.boss.map (fun bb => { bb with health := max 0 (bb.health - 5) })
    (acc.1 ++ [{ p with x := 10000 }],
     createExplosion p.x p.y "#f97316" { acc.2 with boss := hitBoss })
  else (acc.1 ++ [p], acc.2)

/-- `setProjectiles(prev => ...)`: advance by own vx (unscaled by delta-time),
retire past width + 100, run boss collisions if the render-time boss is
active, then keep only `p.x < width` (which drops the marked ones). -/
def projectilePhase (c : AppState) (st : AppState) : AppState :=
  let moved := (st.projectiles.map fun p => { p with x := p.x + p.vx }).filter
      fun p => decide (p.x < c.dimensions.width + 100)
  match c.boss with
  | some b =>
      if b.active then
        let r := moved.foldl (projStep b) ([], st)
        { r.2 with projectiles := r.1.filter fun p => decide (p.x < c.dimensions.width) }
      else { st with projectiles := moved.filter fun p => decide (p.x < c.dimensions.width) }
  | none => { st with projectiles := moved.filter fun p => decide (p.x < c.dimensions.width) }

/-- One iteration of the obstacle collision loop (reads the render-time
closure `c` for playerY and activePowerUps). -/
def obsStep (c : AppState) (st : AppState) (o : Obstacle) : AppState :=
  if overlapPlayer c.playerY o.x o.y o.width o.height then
    if jsTruthy (c.activePowerUps PowerUpType.FIRE_WINGS) then
      createExplosion o.x o.y "#f97316" st
    else if !jsTruthy (c.activePowerUps PowerUpType.WIND_GLIDE) then
      handleDeath c st
    else st
  else st

/-- `setObstacles(prev => ...)`: advance leftward by `currentSpeed * deltaTime`,
retire past x ≤ -100, run the player collision loop, and return the moved
list unchanged (a FIRE_WINGS hit emits an explosion but performs no removal). -/
def obstaclePhase (c : AppState) (speed dt : ℚ) (st : AppState) : AppState :=
  let moved := (st.obstacles.map fun o => { o with x := o.x - speed * dt }).filter
      fun o => decide (o.x > -100)
  { moved.foldl (obsStep c) st with obstacles := moved }

/-- One iteration of the power-up pickup loop: on overlap, install the
modifier with duration 10000 and emit a pickup effect. -/
def puStep (c : AppState) (st : AppState) (p : PowerUp) : AppState :=
  if overlapPlayer c.playerY p.x p.y p.width p.height then
    createExplosion p.x p.y "#fbbf24"
      { st with activePowerUps := fun k =>
          if k = p.type then some 10000 else st.activePowerUps k }
  else st

/-- `setPowerUps(prev => ...)`: advance leftward, retire past x ≤ -100, run
the pickup loop, and return the moved list unchanged (pickup does not remove
the power-up from the pool). -/
def powerUpPhase (c : AppState) (speed dt : ℚ) (st : AppState) : AppState :=
  let moved := (st.powerUps.map fun p => { p with x := p.x - speed * dt }).filter
      fun p => decide (p.x > -100)
  { moved.foldl (puStep c) st with powerUps := moved }

/-- `setParticles(prev => ...)`: drift, decay life by 0.02, retire at life ≤ 0. -/
def particlePhase (st : AppState) : AppState :=
  { st with particles :=
      ((st.particles.map
          (fun p => { p with x := p.x + p.vx, y := p.y + p.vy, life := p.life - 0.02 })).filter
        (fun p => decide (p.life > 0))) }

/-- The boss created by `spawnBoss` (health = maxHealth = 100, active). -/
def newBoss (dims : Dims) : Boss :=
  { id := "BOSS_1", x := dims.width + 200, y := dims.height / 2 - 100,
    width := 200, height := 200, health := 100, maxHealth := 100,
    active := true, phase := 1 }

/-- `spawnBoss()`: install the fresh boss and clear the obstacle pool. -/
def spawnBoss (c : AppState) (st : AppState) : AppState :=
  { st with boss := some (newBoss c.dimensions), obstacles := [] }

/-- Per-challenge transform inside `setChallenges`: while not completed and
not in phoenix mode, recompute progress as `nextScore / 10`, clamping to the
target and completing when it is reached. -/
def chStep (phoenix : Bool) (ns : ℕ) (ch : Challenge) : Challenge :=
  if !ch.completed && !phoenix then
    if ((ns : ℚ) / 10) ≥ ch.target then
      { ch with progress := ch.target, completed := true }
    else
      { ch with progress := (ns : ℚ) / 10 }
  else ch

/-- One insertion into a JavaScript Set (skip when already present). -/
def dedupStep (acc : List String) (x : String) : List String :=
  if x ∈ acc then acc else acc ++ [x]

/-- `[...new Set(l)]`: JavaScript Set construction keeps the first occurrence
of each element in insertion order. -/
def jsSetDedup (l : List String) : List String :=
  l.foldl dedupStep []

/-- `setUnlockedSkins(skins => [...new Set([...skins, r])])`. -/
def jsSetAdd (skins : List String) (r : String) : List String :=
  jsSetDedup (skins ++ [r])

/-- The challenge loop body, threading the accumulated challenge list and the
unlocked-skin list (mutated through `setUnlockedSkins` on completion). -/
def challengeStep (phoenix : Bool) (ns : ℕ) (acc : List Challenge × List String)
    (ch : Challenge) : List Challenge × List String :=
  if !ch.completed && !phoenix then
    if ((ns : ℚ) / 10) ≥ ch.target then
      (acc.1 ++ [{ ch with progress := ch.target, completed := true }],
       jsSetAdd acc.2 ch.rewardSkin)
    else (acc.1 ++ [{ ch with progress := (ns : ℚ) / 10 }], acc.2)
  else (acc.1 ++ [ch], acc.2)

/-- `setScore(s => ...)`: increment the score; on a 1000-multiple with no
render-time boss, spawn the boss; then run the challenge update with the
incremented score and the render-time phoenix flag. -/
def scorePhase (c : AppState) (st : AppState) : AppState :=
  let nextScore := st.score + 1
  let st1 := if nextScore % 1000 = 0 ∧ c.boss = none then spawnBoss c st else st
  let cs := st1.challenges.foldl (challengeStep c.isPhoenixMode nextScore)
      ([], st1.unlockedSkins)
  { st1 with challenges := cs.1, unlockedSkins := cs.2, score := nextScore }

/-- A boss-fired laser obstacle. -/
def bossLaser (b : Boss) (id : String) : Obstacle :=
  { id := id, x := b.x, y := b.y + b.height / 2, width := 100, height := 10,
    type := ObstacleType.LASER, speed := 10 }

/-- Boss behaviour, guarded by the render-time boss being present and active:
approach while beyond width - 250 (fixed decrement 2), otherwise oscillate by
`Math.sin(time / 500) * 3`; with probability 0.05 fire a laser; at health ≤ 0
explode, fire confetti, and remove the boss. -/
def bossPhase (c : AppState) (env : Env) (st : AppState) : AppState :=
  match c.boss with
  | none => st
  | some b =>
      if b.active then
        match st.boss with
        | none => st
        | some prev =>
            let nextX := if prev.x > c.dimensions.width - 250 then prev.x - 2 else prev.x
            let nextY := if prev.x > c.dimensions.width - 250 then prev.y
                         else prev.y + env.sinTime * 3
            let st1 := if env.bossShoot then
                { st with obstacles := st.obstacles ++ [bossLaser prev env.laserId] }
              else st
            if prev.health ≤ 0 then
              let st2 := createExplosion (prev.x + prev.width / 2)
                  (prev.y + prev.height / 2) "#ef4444" st1
              { st2 with boss := none, effects := st2.effects ++ [Effect.confetti] }
            else { st1 with boss := some { prev with x := nextX, y := nextY } }
      else st

/-- Player auto-shot while FIRE_WINGS is active (probability 0.1 per tick). -/
def shootPhase (c : AppState) (env : Env) (st : AppState) : AppState :=
  if jsTruthy (c.activePowerUps PowerUpType.FIRE_WINGS) && env.playerShoot then
    { st with projectiles := st.projectiles ++
        [{ id := env.projId, x := 50 + PLAYER_SIZE, y := c.playerY,
           width := 20, height := 10, vx := 15, vy := 0 }] }
  else st

/-- A freshly spawned obstacle (speed recorded from the render-time score). -/
def spawnObstacleEnt (c : AppState) (env : Env) : Obstacle :=
  { id := env.obstacleId, x := c.dimensions.width + 100, y := env.obstacleY,
    width := OBSTACLE_WIDTH,
    height := if env.obstacleType = ObstacleType.LASER then 200 else 60,
    type := env.obstacleType, speed := GAME_SPEED_BASE + (c.score : ℚ) / 500 }

/-- A freshly spawned power-up. -/
def spawnPowerUpEnt (c : AppState) (env : Env) : PowerUp :=
  { id := env.powerUpId, x := c.dimensions.width + 100, y := env.powerUpY,
    width := POWERUP_SIZE, height := POWERUP_SIZE, type := env.powerUpType }

/-- Spawn controller: obstacle trial (2%) suppressed while the render-time
boss exists; power-up trial (0.5%) unconditional. -/
def spawnPhase (c : AppState) (env : Env) (st : AppState) : AppState :=
  let st1 := if env.doSpawnObstacle && c.boss.isNone then
      { st with obstacles := st.obstacles ++ [spawnObstacleEnt c env] }
    else st
  if env.doSpawnPowerUp then
    { st1 with powerUps := st1.powerUps ++ [spawnPowerUpEnt c env] }
  else st1

/-- Effective scroll speed: `(isPhoenixMode ? base * 2 : base) + score / 1000`. -/
def currentSpeedOf (s : AppState) : ℚ :=
  (if s.isPhoenixMode then GAME_SPEED_BASE * 2 else GAME_SPEED_BASE) + (s.score : ℚ) / 1000

/-- The body of one tick, given the normalized delta-time, in source dispatch
order; `s` plays the role of the render-time closure throughout. -/
def tickBody (s : AppState) (env : Env) (dt : ℚ) : AppState :=
  let speed := currentSpeedOf s
  let s1 := playerPhase s dt s
  let s2 := { s1 with
                backgroundOffset := jsMod (s1.backgroundOffset - speed * 0.5) s.dimensions.width }
  let s3 := projectilePhase s s2
  let s4 := obstaclePhase s speed dt s3
  let s5 := powerUpPhase s speed dt s4
  let s6 := particlePhase s5
  let s7 := scorePhase s s6
  let s8 := bossPhase s env s7
  let s9 := shootPhase s env s8
  spawnPhase s env s9

/-- `update(time)`: return immediately unless PLAYING (leaving `lastTimeRef`
untouched); on the first tick only seed `lastTimeRef`; otherwise run the tick
body with `deltaTime = (time - lastTime) / 16` and store the timestamp. -/
def update (s : AppState) (env : Env) : AppState :=
  if s.gameState ≠ GameState.PLAYING then s
  else
    match s.lastTime with
    | none => { s with lastTime := some env.time }
    | some t0 => { tickBody s env ((env.time - t0) / 16) with lastTime := some env.time }

/-- `handleJump()`: boost while PLAYING, start from START. -/
def startGame (s : AppState) : AppState :=
  { s with score := 0, playerY := s.dimensions.height / 2, playerVelocity := 0,
           obstacles := [], powerUps := [], particles := [], projectiles := [],
           activePowerUps := fun _ => none, isPhoenixMode := false, boss := none,
           gameState := GameState.PLAYING }

/-- `handleJump()`. -/
def handleJump (s : AppState) : AppState :=
  if s.gameState = GameState.PLAYING then { s with playerVelocity := JUMP_FORCE }
  else if s.gameState = GameState.START then startGame s
  else s

/-- Pause command (Escape key / gear button), honored only while PLAYING. -/
def pauseGame (s : AppState) : AppState :=
  if s.gameState = GameState.PLAYING then { s with gameState := GameState.PAUSED } else s

/-- Resume command (RESUME button): `setGameState('PLAYING')`. -/
def resumeGame (s : AppState) : AppState :=
  { s with gameState := GameState.PLAYING }

/-- The initial challenge list from the `useState` initializer. -/
def challenge1 : Challenge :=
  { id := "CHALLENGE_1", description := "Survive 500m without dying",
    target := 500, progress := 0, completed := false, rewardSkin := "ICE" }

/-! ### Generic preservation machinery -/

theorem foldl_pres {β : Type _} {α : Type _} (f : β → α → β) (P : β → Prop)
    (h : ∀ b a, P b → P (f b a)) :
    ∀ (l : List α) (b : β), P b → P (List.foldl f b l) := by
  intro l
  induction l with
  | nil => exact fun b hb => hb
  | cons x xs ih => exact fun b hb => ih (f b x) (h b x hb)

theorem handleDeath_proj {γ : Type _} (g : AppState → γ)
    (h1 : ∀ st f e, g { st with activePowerUps := f, effects := e } = g st)
    (h2 : ∀ st gs pm t e,
      g { st with gameState := gs, isPhoenixMode := pm, scheduledTimers := t, effects := e } = g st)
    (h3 : ∀ st gs hs, g { st with gameState := gs, highScore := hs } = g st)
    (c st : AppState) : g (handleDeath c st) = g st := by
  simp only [handleDeath, createExplosion]
  split
  · rw [h1]
  · split
    · rw [h2]
    · rw [h3]

theorem projStep_snd (b : Boss) (acc : List Projectile × AppState) (p : Projectile) :
    (projStep b acc p).2 = if overlapBoss p b then
      { acc.2 with
          boss := acc.2.boss.map (fun bb => { bb with health := max 0 (bb.health - 5) }),
          effects := acc.2.effects ++ [Effect.explosion p.x p.y "#f97316"] }
    else acc.2 := by
  unfold projStep createExplosion
  split <;> rfl

theorem projectilePhase_proj {γ : Type _} (g : AppState → γ)
    (hbe : ∀ st bo e, g { st with boss := bo, effects := e } = g st)
    (hpr : ∀ st l, g { st with projectiles := l } = g st)
    (c st : AppState) : g (projectilePhase c st) = g st := by
  simp only [projectilePhase]
  split
  · split
    · rw [hpr]
      refine foldl_pres (projStep _) (fun acc => g acc.2 = g st) ?_ _ ⟨[], st⟩ rfl
      intro acc p hacc
      rw [projStep_snd]
      split
      · rw [hbe]
        exact hacc
      · exact hacc
    · rw [hpr]
  · rw [hpr]

theorem obsStep_proj {γ : Type _} (g : AppState → γ)
    (he : ∀ st e, g { st with effects := e } = g st)
    (c : AppState)
    (hd : ∀ st, g (handleDeath c st) = g st)
    (st : AppState) (o : Obstacle) : g (obsStep c st o) = g st := by
  simp only [obsStep, createExplosion]
  split
  · split
    · rw [he]
    · split
      · rw [hd]
      · rfl
  · rfl

theorem obstaclePhase_proj {γ : Type _} (g : AppState → γ)
    (ho : ∀ st l, g { st with obstacles := l } = g st)
    (he : ∀ st e, g { st with effects := e } = g st)
    (c : AppState)
    (hd : ∀ st, g (handleDeath c st) = g st)
    (speed dt : ℚ) (st : AppState) : g (obstaclePhase c speed dt st) = g st := by
  simp only [obstaclePhase]
  rw [ho]
  exact foldl_pres (obsStep c) (fun x => g x = g st)
    (fun b a hbp => by
      show g (obsStep c b a) = g st
      rw [obsStep_proj g he c hd b a]
      exact hbp) _ st rfl

theorem puStep_proj {γ : Type _} (g : AppState → γ)
    (hae : ∀ st f e, g { st with activePowerUps := f, effects := e } = g st)
    (c st : AppState) (p : PowerUp) : g (puStep c st p) = g st := by
  simp only [puStep, createExplosion]
  split
  · rw [hae]
  · rfl

theorem powerUpPhase_proj {γ : Type _} (g : AppState → γ)
    (hae : ∀ st f e, g { st with activePowerUps := f, effects := e } = g st)
    (hpu : ∀ st l, g { st with powerUps := l } = g st)
    (c : AppState) (speed dt : ℚ) (st : AppState) :
    g (powerUpPhase c speed dt st) = g st := by
  simp only [powerUpPhase]
  rw [hpu]
  exact foldl_pres (puStep c) (fun x => g x = g st)
    (fun b a hbp => by
      show g (puStep c b a) = g st
      rw [puStep_proj g hae c b a]
      exact hbp) _ st rfl

theorem particlePhase_proj {γ : Type _} (g : AppState → γ)
    (hpar : ∀ st l, g { st with particles := l } = g st)
    (st : AppState) : g (particlePhase st) = g st := by
  simp only [particlePhase]
  rw [hpar]

theorem scorePhase_proj {γ : Type _} (g : AppState → γ)
    (h : ∀ st bo o ch us n,
      g { st with boss := bo, obstacles := o, challenges := ch,
                  unlockedSkins := us, score := n } = g st)
    (c st : AppState) : g (scorePhase c st) = g st := by
  simp only [scorePhase, spawnBoss]
  rw [h]
  split
  · rw [h]
  · rfl

theorem bossPhase_proj {γ : Type _} (g : AppState → γ)
    (h : ∀ st o bo e, g { st with obstacles := o, boss := bo, effects := e } = g st)
    (c : AppState) (env : Env) (st : AppState) : g (bossPhase c env st) = g st := by
  simp only [bossPhase, createExplosion]
  split
  · rfl
  · split
    · split
      · rfl
      · split
        · rw [h]
          split
          · rw [h]
          · rfl
        · rw [h]
          split
          · rw [h]
          · rfl
    · rfl

theorem shootPhase_proj {γ : Type _} (g : AppState → γ)
    (hpr : ∀ st l, g { st with projectiles := l } = g st)
    (c : AppState) (env : Env) (st : AppState) : g (shootPhase c env st) = g st := by
  simp only [shootPhase]
  split
  · rw [hpr]
  · rfl

theorem spawnPhase_proj {γ : Type _} (g : AppState → γ)
    (h : ∀ st o pu, g { st with obstacles := o, powerUps := pu } = g st)
    (c : AppState) (env : Env) (st : AppState) : g (spawnPhase c env st) = g st := by
  simp only [spawnPhase]
  split
  · rw [h]
    split
    · rw [h]
    · rfl
  · split
    · rw [h]
    · rfl

theorem playerPhase_proj {γ : Type _} (g : AppState → γ)
    (hvy : ∀ st v y, g { st with playerY := y, playerVelocity := v } = g st)
    (c : AppState)
    (hd : ∀ st, g (handleDeath c st) = g st)
    (dt : ℚ) (st : AppState) : g (playerPhase c dt st) = g st := by
  simp only [playerPhase]
  split
  · rw [hd, hvy]
  · rw [hvy]

/-! ### Modifier-set evolution -/

/-- How a tick may change one `activePowerUps` entry: unchanged, refreshed to
the pickup duration 10000, or (for SHIELD only) consumed. -/
def apuRel (k : PowerUpType) (a b : AppState) : Prop :=
  b.activePowerUps k = a.activePowerUps k ∨ b.activePowerUps k = some 10000 ∨
    (k = PowerUpType.SHIELD ∧ b.activePowerUps k = none)

theorem apuRel_refl (k : PowerUpType) (a : AppState) : apuRel k a a := Or.inl rfl

theorem apuRel_trans {k : PowerUpType} {a b c : AppState}
    (h1 : apuRel k a b) (h2 : apuRel k b c) : apuRel k a c := by
  rcases h2 with h2 | h2 | ⟨hk, h2⟩
  · unfold apuRel at h1 ⊢
    rw [h2]
    exact h1
  · exact Or.inr (Or.inl h2)
  · exact Or.inr (Or.inr ⟨hk, h2⟩)

theorem apuRel_congr {k : PowerUpType} {a b b' : AppState}
    (h : b'.activePowerUps k = b.activePowerUps k) (hr : apuRel k a b) : apuRel k a b' := by
  unfold apuRel at hr ⊢
  rw [h]
  exact hr

theorem apuRel_step {k : PowerUpType} {a b : AppState} (f : AppState → AppState)
    (hf : ∀ x, apuRel k x (f x)) (h : apuRel k a b) : apuRel k a (f b) :=
  apuRel_trans h (hf b)

theorem handleDeath_apuRel (k : PowerUpType) (c st : AppState) :
    apuRel k st (handleDeath c st) := by
  unfold apuRel handleDeath createExplosion
  split
  · by_cases hk : k = PowerUpType.SHIELD
    · exact Or.inr (Or.inr ⟨hk, by simp [hk]⟩)
    · exact Or.inl (by simp [hk])
  · split
    · exact Or.inl rfl
    · exact Or.inl rfl

theorem handleDeath_apu_frame (c st : AppState) (k : PowerUpType)
    (hk : k ≠ PowerUpType.SHIELD) :
    (handleDeath c st).activePowerUps k = st.activePowerUps k := by
  simp only [handleDeath, createExplosion]
  split
  · simp [hk]
  · split <;> rfl

theorem handleDeath_shield_gone (c st : AppState)
    (h : jsTruthy (c.activePowerUps PowerUpType.SHIELD) = true) :
    (handleDeath c st).activePowerUps PowerUpType.SHIELD = none := by
  simp only [handleDeath, createExplosion]
  rw [if_pos h]
  simp

theorem obsStep_apuRel (k : PowerUpType) (c st : AppState) (o : Obstacle) :
    apuRel k st (obsStep c st o) := by
  unfold obsStep createExplosion
  split
  · split
    · exact Or.inl rfl
    · split
      · exact handleDeath_apuRel k c st
      · exact apuRel_refl k st
  · exact apuRel_refl k st

theorem puStep_apuRel (k : PowerUpType) (c st : AppState) (p : PowerUp) :
    apuRel k st (puStep c st p) := by
  unfold apuRel puStep createExplosion
  split
  · by_cases hk : k = p.type
    · exact Or.inr (Or.inl (by simp [hk]))
    · exact Or.inl (by simp [hk])
  · exact Or.inl rfl

theorem playerPhase_apuRel (k : PowerUpType) (c : AppState) (dt : ℚ) (st : AppState) :
    apuRel k st (playerPhase c dt st) := by
  simp only [playerPhase]
  split
  · exact handleDeath_apuRel k c { st with playerVelocity := st.playerVelocity + GRAVITY * dt }
  · exact Or.inl rfl

theorem obstaclePhase_apuRel (k : PowerUpType) (c : AppState) (speed dt : ℚ) (st : AppState) :
    apuRel k st (obstaclePhase c speed dt st) := by
  simp only [obstaclePhase]
  exact apuRel_congr rfl (foldl_pres (obsStep c) (apuRel k st)
    (fun b a hb => apuRel_trans hb (obsStep_apuRel k c b a)) _ st (apuRel_refl k st))

theorem powerUpPhase_apuRel (k : PowerUpType) (c : AppState) (speed dt : ℚ) (st : AppState) :
    apuRel k st (powerUpPhase c speed dt st) := by
  simp only [powerUpPhase]
  exact apuRel_congr rfl (foldl_pres (puStep c) (apuRel k st)
    (fun b a hb => apuRel_trans hb (puStep_apuRel k c b a)) _ st (apuRel_refl k st))

theorem tickBody_apuRel (k : PowerUpType) (s : AppState) (env : Env) (dt : ℚ) :
    apuRel k s (tickBody s env dt) := by
  simp only [tickBody]
  refine apuRel_step _ (fun x => Or.inl
    (congrFun (spawnPhase_proj AppState.activePowerUps (fun _ _ _ => rfl) s env x) k)) ?_
  refine apuRel_step _ (fun x => Or.inl
    (congrFun (shootPhase_proj AppState.activePowerUps (fun _ _ => rfl) s env x) k)) ?_
  refine apuRel_step _ (fun x => Or.inl
    (congrFun (bossPhase_proj AppState.activePowerUps (fun _ _ _ _ => rfl) s env x) k)) ?_
  refine apuRel_step _ (fun x => Or.inl
    (congrFun (scorePhase_proj AppState.activePowerUps (fun _ _ _ _ _ _ => rfl) s x) k)) ?_
  refine apuRel_step _ (fun x => Or.inl
    (congrFun (particlePhase_proj AppState.activePowerUps (fun _ _ => rfl) x) k)) ?_
  refine apuRel_step _ (fun x => powerUpPhase_apuRel k s (currentSpeedOf s) dt x) ?_
  refine apuRel_step _ (fun x => obstaclePhase_apuRel k s (currentSpeedOf s) dt x) ?_
  refine apuRel_step _ (fun x => Or.inl
    (congrFun (projectilePhase_proj AppState.activePowerUps (fun _ _ _ => rfl) (fun _ _ => rfl) s x) k)) ?_
  exact apuRel_congr rfl (playerPhase_apuRel k s dt s)

/-! ### JavaScript Set deduplication -/

theorem dedupStep_def (acc : List String) (x : String) :
    dedupStep acc x = if x ∈ acc then acc else acc ++ [x] := rfl

theorem jsSetDedup_go_mem (l : List String) :
    ∀ (acc : List String) (x : String),
      x ∈ List.foldl dedupStep acc l ↔ x ∈ acc ∨ x ∈ l := by
  induction l with
  | nil => intro acc x; simp
  | cons y ys ih =>
      intro acc x
      rw [List.foldl_cons, ih]
      unfold dedupStep
      by_cases hy : y ∈ acc
      · rw [if_pos hy]
        simp only [List.mem_cons]
        constructor
        · rintro (h | h)
          · exact Or.inl h
          · exact Or.inr (Or.inr h)
        · rintro (h | rfl | h)
          · exact Or.inl h
          · exact Or.inl hy
          · exact Or.inr h
      · rw [if_neg hy]
        simp only [List.mem_append, List.mem_singleton, List.mem_cons]
        tauto

theorem jsSetDedup_mem (l : List String) (x : String) : x ∈ jsSetDedup l ↔ x ∈ l := by
  unfold jsSetDedup
  rw [jsSetDedup_go_mem]
  simp

theorem jsSetDedup_go_nodup (l : List String) (acc : List String) (h : acc.Nodup) :
    (List.foldl dedupStep acc l).Nodup := by
  refine foldl_pres dedupStep List.Nodup ?_ l acc h
  intro b a hb
  unfold dedupStep
  split
  · exact hb
  · next hy => exact List.Nodup.append hb (List.nodup_singleton a) (by simpa using hy)

theorem jsSetDedup_go_eq (l : List String) :
    ∀ acc : List String, (∀ x ∈ l, x ∉ acc) → l.Nodup →
      List.foldl dedupStep acc l = acc ++ l := by
  induction l with
  | nil => intro acc _ _; simp
  | cons y ys ih =>
      intro acc hdisj hnd
      have hd2 : ∀ x ∈ ys, x ∉ acc ++ [y] := by
        intro x hx
        simp only [List.mem_append, List.mem_singleton]
        rintro (hxa | rfl)
        · exact hdisj x (List.mem_cons_of_mem _ hx) hxa
        · exact (List.nodup_cons.mp hnd).1 hx
      rw [List.foldl_cons, dedupStep_def, if_neg (hdisj y (List.mem_cons_self y ys)),
        ih (acc ++ [y]) hd2 (List.nodup_cons.mp hnd).2, List.append_assoc]
      rfl

theorem jsSetDedup_of_nodup (l : List String) (h : l.Nodup) : jsSetDedup l = l := by
  unfold jsSetDedup
  rw [jsSetDedup_go_eq l [] (by simp) h]
  rfl

theorem jsSetAdd_eq (skins : List String) (r : String) (h : skins.Nodup) :
    jsSetAdd skins r = if r ∈ skins then skins else skins ++ [r] := by
  unfold jsSetAdd jsSetDedup
  rw [List.foldl_append, jsSetDedup_go_eq skins [] (by simp) h]
  rfl

theorem jsSetAdd_subset (skins : List String) (r : String) : skins ⊆ jsSetAdd skins r := by
  intro x hx
  exact (jsSetDedup_mem _ x).mpr (List.mem_append_left _ hx)

theorem jsSetAdd_nodup (skins : List String) (r : String) : (jsSetAdd skins r).Nodup :=
  jsSetDedup_go_nodup _ [] List.nodup_nil

/-! ### Challenge update -/

theorem challengeStep_fst (ph : Bool) (ns : ℕ) (acc : List Challenge × List String)
    (ch : Challenge) : (challengeStep ph ns acc ch).1 = acc.1 ++ [chStep ph ns ch] := by
  by_cases hA : (!ch.completed && !ph) = true
  · by_cases hB : ((ns : ℚ) / 10) ≥ ch.target
    · simp [challengeStep, chStep, hA, hB]
    · simp [challengeStep, chStep, hA, hB]
  · simp [challengeStep, chStep, hA]

theorem challengeFold_fst (ph : Bool) (ns : ℕ) :
    ∀ (l : List Challenge) (acc1 : List Challenge) (sk : List String),
      (List.foldl (challengeStep ph ns) (acc1, sk) l).1 = acc1 ++ l.map (chStep ph ns) := by
  intro l
  induction l with
  | nil => intro acc1 sk; simp
  | cons ch l ih =>
      intro acc1 sk
      rw [List.foldl_cons]
      rcases hst : challengeStep ph ns (acc1, sk) ch with ⟨a, b⟩
      have h1 : a = acc1 ++ [chStep ph ns ch] := by
        have h2 := challengeStep_fst ph ns (acc1, sk) ch
        rw [hst] at h2
        exact h2
      subst h1
      rw [ih]
      simp

theorem challengeFold_skins_subset (ph : Bool) (ns : ℕ) (l : List Challenge)
    (acc1 : List Challenge) (sk : List String) :
    sk ⊆ (List.foldl (challengeStep ph ns) (acc1, sk) l).2 := by
  refine foldl_pres (challengeStep ph ns) (fun p => sk ⊆ p.2) ?_ l (acc1, sk)
    (List.Subset.refl sk)
  intro b a hb
  unfold challengeStep
  split
  · split
    · exact hb.trans (jsSetAdd_subset _ _)
    · exact hb
  · exact hb

theorem challengeFold_skins_nodup (ph : Bool) (ns : ℕ) (l : List Challenge)
    (acc1 : List Challenge) (sk : List String) (h : sk.Nodup) :
    (List.foldl (challengeStep ph ns) (acc1, sk) l).2.Nodup := by
  refine foldl_pres (challengeStep ph ns) (fun p => p.2.Nodup) ?_ l (acc1, sk) h
  intro b a hb
  unfold challengeStep
  split
  · split
    · exact jsSetAdd_nodup _ _
    · exact hb
  · exact hb

theorem chStep_completed (ph : Bool) (ns : ℕ) (ch : Challenge) (h : ch.completed = true) :
    chStep ph ns ch = ch := by
  simp [chStep, h]

theorem chStep_phoenix (ns : ℕ) (ch : Challenge) : chStep true ns ch = ch := by
  simp [chStep]

theorem chStep_active_complete (ns : ℕ) (ch : Challenge) (h : ch.completed = false)
    (hc : ((ns : ℚ) / 10) ≥ ch.target) :
    chStep false ns ch = { ch with progress := ch.target, completed := true } := by
  simp [chStep, h, hc]

theorem chStep_active_partial (ns : ℕ) (ch : Challenge) (h : ch.completed = false)
    (hc : ¬(((ns : ℚ) / 10) ≥ ch.target)) :
    chStep false ns ch = { ch with progress := (ns : ℚ) / 10 } := by
  simp [chStep, h, hc]

/-! ### scorePhase characterizations -/

theorem scorePhase_score (c st : AppState) : (scorePhase c st).score = st.score + 1 := rfl

theorem scorePhase_challenges (c st : AppState) :
    (scorePhase c st).challenges = st.challenges.map (chStep c.isPhoenixMode (st.score + 1)) := by
  simp only [scorePhase, spawnBoss]
  rw [challengeFold_fst]
  simp only [List.nil_append]
  split <;> rfl

theorem scorePhase_skins_subset (c st : AppState) :
    st.unlockedSkins ⊆ (scorePhase c st).unlockedSkins := by
  simp only [scorePhase, spawnBoss]
  split
  · exact challengeFold_skins_subset _ _ _ _ _
  · exact challengeFold_skins_subset _ _ _ _ _

theorem scorePhase_skins_nodup (c st : AppState) (h : st.unlockedSkins.Nodup) :
    (scorePhase c st).unlockedSkins.Nodup := by
  simp only [scorePhase, spawnBoss]
  split
  · exact challengeFold_skins_nodup _ _ _ _ _ h
  · exact challengeFold_skins_nodup _ _ _ _ _ h

theorem scorePhase_spawn (c st : AppState)
    (hguard : (st.score + 1) % 1000 = 0 ∧ c.boss = none) :
    (scorePhase c st).boss = some (newBoss c.dimensions) ∧ (scorePhase c st).obstacles = [] := by
  simp only [scorePhase, spawnBoss]
  rw [if_pos hguard]
  exact ⟨rfl, rfl⟩

theorem scorePhase_no_spawn (c st : AppState)
    (hguard : ¬((st.score + 1) % 1000 = 0 ∧ c.boss = none)) :
    (scorePhase c st).boss = st.boss ∧ (scorePhase c st).obstacles = st.obstacles := by
  simp only [scorePhase, spawnBoss]
  rw [if_neg hguard]
  exact ⟨rfl, rfl⟩

/-! ### Power-up pickup -/

theorem puStep_keeps_apu (c : AppState) (k : PowerUpType) (st : AppState) (q : PowerUp)
    (h : st.activePowerUps k = some 10000) :
    (puStep c st q).activePowerUps k = some 10000 := by
  simp only [puStep, createExplosion]
  split
  · by_cases hk : k = q.type <;> simp [hk, h]
  · exact h

theorem puStep_keeps_eff (c : AppState) (e : Effect) (st : AppState) (q : PowerUp)
    (h : e ∈ st.effects) : e ∈ (puStep c st q).effects := by
  simp only [puStep, createExplosion]
  split
  · exact List.mem_append_left _ h
  · exact h

theorem puFold_install (c : AppState) (p : PowerUp)
    (hov : overlapPlayer c.playerY p.x p.y p.width p.height) :
    ∀ (l : List PowerUp), p ∈ l → ∀ st : AppState,
      (List.foldl (puStep c) st l).activePowerUps p.type = some 10000 ∧
      Effect.explosion p.x p.y "#fbbf24" ∈ (List.foldl (puStep c) st l).effects := by
  intro l
  induction l with
  | nil => intro hp; cases hp
  | cons q l ih =>
      intro hp st
      rw [List.foldl_cons]
      rcases List.mem_cons.mp hp with rfl | hq
      · constructor
        · refine foldl_pres (puStep c) (fun x => x.activePowerUps p.type = some 10000)
            (fun b a hb => puStep_keeps_apu c p.type b a hb) l _ ?_
          simp only [puStep, createExplosion]
          rw [if_pos hov]
          simp
        · refine foldl_pres (puStep c)
            (fun x => Effect.explosion p.x p.y "#fbbf24" ∈ x.effects)
            (fun b a hb => puStep_keeps_eff c _ b a hb) l _ ?_
          simp only [puStep, createExplosion]
          rw [if_pos hov]
          simp
      · exact ih hq (puStep c st q)

theorem bossPhase_eff_mem (c : AppState) (env : Env) (st : AppState) (e : Effect)
    (h : e ∈ st.effects) : e ∈ (bossPhase c env st).effects := by
  simp only [bossPhase, createExplosion]
  split
  · exact h
  · split
    · split
      · exact h
      · split
        · refine List.mem_append_left _ (List.mem_append_left _ ?_)
          split
          · exact h
          · exact h
        · split
          · exact h
          · exact h
    · exact h

theorem spawnPhase_pu_mem (c : AppState) (env : Env) (st : AppState) (p : PowerUp)
    (h : p ∈ st.powerUps) : p ∈ (spawnPhase c env st).powerUps := by
  simp only [spawnPhase]
  split
  · refine List.mem_append_left _ ?_
    split
    · exact h
    · exact h
  · split
    · exact h
    · exact h

/-! ### Player integration characterization -/

theorem playerPhase_velocity (c : AppState) (dt : ℚ) (st : AppState) :
    (playerPhase c dt st).playerVelocity = st.playerVelocity + GRAVITY * dt := by
  simp only [playerPhase]
  split
  · rw [handleDeath_proj AppState.playerVelocity (fun _ _ _ => rfl)
      (fun _ _ _ _ _ => rfl) (fun _ _ _ => rfl) c _]
  · rfl

theorem playerPhase_y (c : AppState) (dt : ℚ) (st : AppState) :
    (playerPhase c dt st).playerY =
      if st.playerY + c.playerVelocity * dt < 0 ∨
          st.playerY + c.playerVelocity * dt > c.dimensions.height - PLAYER_SIZE then st.playerY
      else st.playerY + c.playerVelocity * dt := by
  simp only [playerPhase]
  split
  · rw [handleDeath_proj AppState.playerY (fun _ _ _ => rfl)
      (fun _ _ _ _ _ => rfl) (fun _ _ _ => rfl) c _]
  · rfl

theorem tickBody_playerY (s : AppState) (env : Env) (dt : ℚ) :
    (tickBody s env dt).playerY = (playerPhase s dt s).playerY := by
  simp only [tickBody]
  rw [spawnPhase_proj AppState.playerY (fun _ _ _ => rfl) s env _,
      shootPhase_proj AppState.playerY (fun _ _ => rfl) s env _,
      bossPhase_proj AppState.playerY (fun _ _ _ _ => rfl) s env _,
      scorePhase_proj AppState.playerY (fun _ _ _ _ _ _ => rfl) s _,
      particlePhase_proj AppState.playerY (fun _ _ => rfl) _,
      powerUpPhase_proj AppState.playerY (fun _ _ _ => rfl) (fun _ _ => rfl) s _ dt _,
      obstaclePhase_proj AppState.playerY (fun _ _ => rfl) (fun _ _ => rfl) s
        (handleDeath_proj AppState.playerY (fun _ _ _ => rfl) (fun _ _ _ _ _ => rfl)
          (fun _ _ _ => rfl) s) _ dt _,
      projectilePhase_proj AppState.playerY (fun _ _ _ => rfl) (fun _ _ => rfl) s _]

theorem tickBody_velocity (s : AppState) (env : Env) (dt : ℚ) :
    (tickBody s env dt).playerVelocity = s.playerVelocity + GRAVITY * dt := by
  simp only [tickBody]
  rw [spawnPhase_proj AppState.playerVelocity (fun _ _ _ => rfl) s env _,
      shootPhase_proj AppState.playerVelocity (fun _ _ => rfl) s env _,
      bossPhase_proj AppState.playerVelocity (fun _ _ _ _ => rfl) s env _,
      scorePhase_proj AppState.playerVelocity (fun _ _ _ _ _ _ => rfl) s _,
      particlePhase_proj AppState.playerVelocity (fun _ _ => rfl) _,
      powerUpPhase_proj AppState.playerVelocity (fun _ _ _ => rfl) (fun _ _ => rfl) s _ dt _,
      obstaclePhase_proj AppState.playerVelocity (fun _ _ => rfl) (fun _ _ => rfl) s
        (handleDeath_proj AppState.playerVelocity (fun _ _ _ => rfl) (fun _ _ _ _ _ => rfl)
          (fun _ _ _ => rfl) s) _ dt _,
      projectilePhase_proj AppState.playerVelocity (fun _ _ _ => rfl) (fun _ _ => rfl) s _]
  exact playerPhase_velocity s dt s

/-! ### End-to-end tick facts -/

theorem bossPhase_none (c : AppState) (env : Env) (st : AppState) (h : c.boss = none) :
    bossPhase c env st = st := by
  simp only [bossPhase, h]

theorem spawnPhase_obstacles_no (c : AppState) (env : Env) (st : AppState)
    (h : env.doSpawnObstacle = false) : (spawnPhase c env st).obstacles = st.obstacles := by
  simp only [spawnPhase, h, Bool.false_and]
  split
  · rfl
  · rfl

theorem postScore_spawn (s : AppState) (env : Env) (st : AppState)
    (hsc : st.score = s.score)
    (hcross : (s.score + 1) % 1000 = 0) (hnb : s.boss = none)
    (hns : env.doSpawnObstacle = false) :
    (spawnPhase s env (shootPhase s env (bossPhase s env (scorePhase s st)))).boss
        = some (newBoss s.dimensions) ∧
    (spawnPhase s env (shootPhase s env (bossPhase s env (scorePhase s st)))).obstacles = [] := by
  have hguard : (st.score + 1) % 1000 = 0 ∧ s.boss = none := by
    rw [hsc]
    exact ⟨hcross, hnb⟩
  have hsp := scorePhase_spawn s st hguard
  rw [bossPhase_none s env _ hnb]
  constructor
  · rw [spawnPhase_proj AppState.boss (fun _ _ _ => rfl),
        shootPhase_proj AppState.boss (fun _ _ => rfl)]
    exact hsp.1
  · rw [spawnPhase_obstacles_no _ _ _ hns,
        shootPhase_proj AppState.obstacles (fun _ _ => rfl)]
    exact hsp.2

theorem tickBody_spawn (s : AppState) (env : Env) (dt : ℚ)
    (hcross : (s.score + 1) % 1000 = 0) (hnb : s.boss = none)
    (hns : env.doSpawnObstacle = false) :
    (tickBody s env dt).boss = some (newBoss s.dimensions) ∧
    (tickBody s env dt).obstacles = [] := by
  simp only [tickBody]
  refine postScore_spawn s env _ ?_ hcross hnb hns
  rw [particlePhase_proj AppState.score (fun _ _ => rfl),
      powerUpPhase_proj AppState.score (fun _ _ _ => rfl) (fun _ _ => rfl),
      obstaclePhase_proj AppState.score (fun _ _ => rfl) (fun _ _ => rfl) s
        (handleDeath_proj AppState.score (fun _ _ _ => rfl) (fun _ _ _ _ _ => rfl)
          (fun _ _ _ => rfl) s),
      projectilePhase_proj AppState.score (fun _ _ _ => rfl) (fun _ _ => rfl)]
  show (playerPhase s dt s).score = s.score
  exact playerPhase_proj AppState.score (fun _ _ _ => rfl) s
    (handleDeath_proj AppState.score (fun _ _ _ => rfl) (fun _ _ _ _ _ => rfl)
      (fun _ _ _ => rfl) s) dt s

theorem postScore_challenges (s : AppState) (env : Env) (st : AppState)
    (h1 : st.challenges = s.challenges) (h2 : st.score = s.score) :
    (spawnPhase s env (shootPhase s env (bossPhase s env (scorePhase s st)))).challenges
      = s.challenges.map (chStep s.isPhoenixMode (s.score + 1)) := by
  rw [spawnPhase_proj AppState.challenges (fun _ _ _ => rfl),
      shootPhase_proj AppState.challenges (fun _ _ => rfl),
      bossPhase_proj AppState.challenges (fun _ _ _ _ => rfl),
      scorePhase_challenges, h1, h2]

theorem tickBody_challenges (s : AppState) (env : Env) (dt : ℚ) :
    (tickBody s env dt).challenges = s.challenges.map (chStep s.isPhoenixMode (s.score + 1)) := by
  simp only [tickBody]
  refine postScore_challenges s env _ ?_ ?_
  · rw [particlePhase_proj AppState.challenges (fun _ _ => rfl),
        powerUpPhase_proj AppState.challenges (fun _ _ _ => rfl) (fun _ _ => rfl),
        obstaclePhase_proj AppState.challenges (fun _ _ => rfl) (fun _ _ => rfl) s
          (handleDeath_proj AppState.challenges (fun _ _ _ => rfl) (fun _ _ _ _ _ => rfl)
            (fun _ _ _ => rfl) s),
        projectilePhase_proj AppState.challenges (fun _ _ _ => rfl) (fun _ _ => rfl)]
    show (playerPhase s dt s).challenges = s.challenges
    exact playerPhase_proj AppState.challenges (fun _ _ _ => rfl) s
      (handleDeath_proj AppState.challenges (fun _ _ _ => rfl) (fun _ _ _ _ _ => rfl)
        (fun _ _ _ => rfl) s) dt s
  · rw [particlePhase_proj AppState.score (fun _ _ => rfl),
        powerUpPhase_proj AppState.score (fun _ _ _ => rfl) (fun _ _ => rfl),
        obstaclePhase_proj AppState.score (fun _ _ => rfl) (fun _ _ => rfl) s
          (handleDeath_proj AppState.score (fun _ _ _ => rfl) (fun _ _ _ _ _ => rfl)
            (fun _ _ _ => rfl) s),
        projectilePhase_proj AppState.score (fun _ _ _ => rfl) (fun _ _ => rfl)]
    show (playerPhase s dt s).score = s.score
    exact playerPhase_proj AppState.score (fun _ _ _ => rfl) s
      (handleDeath_proj AppState.score (fun _ _ _ => rfl) (fun _ _ _ _ _ => rfl)
        (fun _ _ _ => rfl) s) dt s

theorem postScore_skins (s : AppState) (env : Env) (st : AppState)
    (hsk : st.unlockedSkins = s.unlockedSkins) :
    s.unlockedSkins ⊆
      (spawnPhase s env (shootPhase s env (bossPhase s env (scorePhase s st)))).unlockedSkins ∧
    (s.unlockedSkins.Nodup →
      (spawnPhase s env (shootPhase s env (bossPhase s env (scorePhase s st)))).unlockedSkins.Nodup) := by
  rw [spawnPhase_proj AppState.unlockedSkins (fun _ _ _ => rfl),
      shootPhase_proj AppState.unlockedSkins (fun _ _ => rfl),
      bossPhase_proj AppState.unlockedSkins (fun _ _ _ _ => rfl)]
  constructor
  · have h := scorePhase_skins_subset s st
    rw [hsk] at h
    exact h
  · intro hnd
    refine scorePhase_skins_nodup s st ?_
    rw [hsk]
    exact hnd

theorem tickBody_skins (s : AppState) (env : Env) (dt : ℚ) :
    s.unlockedSkins ⊆ (tickBody s env dt).unlockedSkins ∧
    (s.unlockedSkins.Nodup → (tickBody s env dt).unlockedSkins.Nodup) := by
  simp only [tickBody]
  refine postScore_skins s env _ ?_
  rw [particlePhase_proj AppState.unlockedSkins (fun _ _ => rfl),
      powerUpPhase_proj AppState.unlockedSkins (fun _ _ _ => rfl) (fun _ _ => rfl),
      obstaclePhase_proj AppState.unlockedSkins (fun _ _ => rfl) (fun _ _ => rfl) s
        (handleDeath_proj AppState.unlockedSkins (fun _ _ _ => rfl) (fun _ _ _ _ _ => rfl)
          (fun _ _ _ => rfl) s),
      projectilePhase_proj AppState.unlockedSkins (fun _ _ _ => rfl) (fun _ _ => rfl)]
  show (playerPhase s dt s).unlockedSkins = s.unlockedSkins
  exact playerPhase_proj AppState.unlockedSkins (fun _ _ _ => rfl) s
    (handleDeath_proj AppState.unlockedSkins (fun _ _ _ => rfl) (fun _ _ _ _ _ => rfl)
      (fun _ _ _ => rfl) s) dt s

theorem postPickup_apu (s : AppState) (env : Env) (st : AppState) (k : PowerUpType)
    (h : st.activePowerUps k = some 10000) :
    (spawnPhase s env (shootPhase s env (bossPhase s env (scorePhase s
      (particlePhase st))))).activePowerUps k = some 10000 := by
  rw [spawnPhase_proj AppState.activePowerUps (fun _ _ _ => rfl),
      shootPhase_proj AppState.activePowerUps (fun _ _ => rfl),
      bossPhase_proj AppState.activePowerUps (fun _ _ _ _ => rfl),
      scorePhase_proj AppState.activePowerUps (fun _ _ _ _ _ _ => rfl),
      particlePhase_proj AppState.activePowerUps (fun _ _ => rfl)]
  exact h

theorem postPickup_eff (s : AppState) (env : Env) (st : AppState) (e : Effect)
    (h : e ∈ st.effects) :
    e ∈ (spawnPhase s env (shootPhase s env (bossPhase s env (scorePhase s
      (particlePhase st))))).effects := by
  rw [spawnPhase_proj AppState.effects (fun _ _ _ => rfl),
      shootPhase_proj AppState.effects (fun _ _ => rfl)]
  refine bossPhase_eff_mem s env _ e ?_
  rw [scorePhase_proj AppState.effects (fun _ _ _ _ _ _ => rfl),
      particlePhase_proj AppState.effects (fun _ _ => rfl)]
  exact h

theorem postObstacle_pu (s : AppState) (env : Env) (dt : ℚ) (st : AppState) (p : PowerUp)
    (hps : st.powerUps = s.powerUps)
    (hp : p ∈ s.powerUps)
    (hx : ({ p with x := p.x - currentSpeedOf s * dt }).x > -100) :
    ({ p with x := p.x - currentSpeedOf s * dt }) ∈
      (spawnPhase s env (shootPhase s env (bossPhase s env (scorePhase s
        (particlePhase (powerUpPhase s (currentSpeedOf s) dt st)))))).powerUps ∧
    (overlapPlayer s.playerY (p.x - currentSpeedOf s * dt) p.y p.width p.height →
      (spawnPhase s env (shootPhase s env (bossPhase s env (scorePhase s
        (particlePhase (powerUpPhase s (currentSpeedOf s) dt st)))))).activePowerUps p.type
          = some 10000 ∧
      Effect.explosion (p.x - currentSpeedOf s * dt) p.y "#fbbf24" ∈
        (spawnPhase s env (shootPhase s env (bossPhase s env (scorePhase s
          (particlePhase (powerUpPhase s (currentSpeedOf s) dt st)))))).effects) := by
  have hmv : ({ p with x := p.x - currentSpeedOf s * dt }) ∈
      (st.powerUps.map (fun q => { q with x := q.x - currentSpeedOf s * dt })).filter
        (fun q => decide (q.x > -100)) := by
    rw [hps]
    refine List.mem_filter.mpr ⟨List.mem_map_of_mem _ hp, ?_⟩
    simpa using hx
  constructor
  · apply spawnPhase_pu_mem
    rw [shootPhase_proj AppState.powerUps (fun _ _ => rfl),
        bossPhase_proj AppState.powerUps (fun _ _ _ _ => rfl),
        scorePhase_proj AppState.powerUps (fun _ _ _ _ _ _ => rfl),
        particlePhase_proj AppState.powerUps (fun _ _ => rfl)]
    exact hmv
  · intro hov
    have hinst := puFold_install s ({ p with x := p.x - currentSpeedOf s * dt }) hov _ hmv st
    constructor
    · exact postPickup_apu s env _ p.type hinst.1
    · exact postPickup_eff s env _ _ hinst.2

theorem tickBody_pu (s : AppState) (env : Env) (dt : ℚ) (p : PowerUp)
    (hp : p ∈ s.powerUps)
    (hx : ({ p with x := p.x - currentSpeedOf s * dt }).x > -100) :
    ({ p with x := p.x - currentSpeedOf s * dt }) ∈ (tickBody s env dt).powerUps ∧
    (overlapPlayer s.playerY (p.x - currentSpeedOf s * dt) p.y p.width p.height →
      (tickBody s env dt).activePowerUps p.type = some 10000 ∧
      Effect.explosion (p.x - currentSpeedOf s * dt) p.y "#fbbf24" ∈ (tickBody s env dt).effects) := by
  simp only [tickBody]
  refine postObstacle_pu s env dt _ p ?_ hp hx
  rw [obstaclePhase_proj AppState.powerUps (fun _ _ => rfl) (fun _ _ => rfl) s
        (handleDeath_proj AppState.powerUps (fun _ _ _ => rfl) (fun _ _ _ _ _ => rfl)
          (fun _ _ _ => rfl) s),
      projectilePhase_proj AppState.powerUps (fun _ _ _ => rfl) (fun _ _ => rfl)]
  show (playerPhase s dt s).powerUps = s.powerUps
  exact playerPhase_proj AppState.powerUps (fun _ _ _ => rfl) s
    (handleDeath_proj AppState.powerUps (fun _ _ _ => rfl) (fun _ _ _ _ _ => rfl)
      (fun _ _ _ => rfl) s) dt s

theorem update_run (s : AppState) (env : Env) (t0 : ℚ)
    (hg : s.gameState = GameState.PLAYING) (hl : s.lastTime = some t0) :
    update s env = { tickBody s env ((env.time - t0) / 16) with lastTime := some env.time } := by
  simp only [update, hg, hl]
  rfl

/-! ### Concrete fixtures -/

/-- A mid-run state: PLAYING at score 0, 1200 x 800 viewport, player at
mid-height with zero velocity, clock seeded at timestamp 0. -/
def baseState : AppState :=
  { gameState := GameState.PLAYING, score := 0, highScore := 0,
    dimensions := { width := 1200, height := 800 },
    playerY := 400, playerVelocity := 0, isPhoenixMode := false,
    activePowerUps := fun _ => none,
    obstacles := [], powerUps := [], particles := [], backgroundOffset := 0,
    boss := none, projectiles := [], currentSkin := "DEFAULT",
    unlockedSkins := ["DEFAULT"], challenges := [challenge1],
    effects := [], scheduledTimers := [], lastTime := some 0 }

/-- A quiet frame at timestamp 16 (delta-time 1): every random trial fails. -/
def baseEnv : Env :=
  { time := 16, sinTime := 0, bossShoot := false, playerShoot := false,
    doSpawnObstacle := false, doSpawnPowerUp := false,
    obstacleType := ObstacleType.DRONE, obstacleY := 0,
    powerUpType := PowerUpType.SHIELD, powerUpY := 0,
    obstacleId := "o1", powerUpId := "p1", laserId := "l1", projId := "j1" }

/-- Paused at wall-clock 1000ms (the last PLAYING tick's timestamp). -/
def sPausedC4 : AppState :=
  { baseState with gameState := GameState.PAUSED, lastTime := some 1000 }

/-- The first frame after a 16-second pause. -/
def envResume : Env := { baseEnv with time := 17000 }

/-- A SHIELD power-up one tick away from overlapping the player. -/
def pw1 : PowerUp :=
  { id := "pw", x := 60, y := 400, width := 30, height := 30, type := PowerUpType.SHIELD }

/-- baseState with one power-up in the pool. -/
def sC5 : AppState := { baseState with powerUps := [pw1] }

/-- A drone obstacle one tick away from overlapping the player. -/
def ob1 : Obstacle :=
  { id := "ob", x := 60, y := 400, width := 60, height := 60,
    type := ObstacleType.DRONE, speed := 5 }

/-- A modifier set holding only FIRE_WINGS. -/
def fwOnly : PowerUpType → Option ℚ :=
  fun k => if k = PowerUpType.FIRE_WINGS then some 10000 else none

/-- baseState with FIRE_WINGS active and one overlapping obstacle. -/
def sC6 : AppState := { baseState with obstacles := [ob1], activePowerUps := fwOnly }

/-- baseState one point before the 1000-score boss threshold. -/
def sC7 : AppState := { baseState with score := 999 }

/-- baseState with a SHIELD modifier active. -/
def cW : AppState :=
  { baseState with activePowerUps :=
      fun k => if k = PowerUpType.SHIELD then some 10000 else none }

theorem jsTruthy_eq_isSome (apu : PowerUpType → Option ℚ) (k : PowerUpType)
    (hwf : ∀ j v, apu j = some v → v ≠ 0) : jsTruthy (apu k) = (apu k).isSome := by
  cases h : apu k with
  | none => rfl
  | some v => simp [jsTruthy, hwf k v h]

/-! ### The claims -/

/-- C1: Death resolution, whenever invoked, takes exactly one of three
outcomes, tested in strict order: if SHIELD is in the active-modifier set,
the SHIELD entry is removed, a defensive effect is emitted, and no
life-state transition occurs; else if PHOENIX is in the modifier set or the
player is not in phoenix mode, the machine enters PHOENIX_REVIVE with
phoenix mode set, later returning to PLAYING (1000ms timer) and clearing
phoenix mode (further 5000ms timer); else it enters GAME_OVER and the best
score is updated when the current score exceeds it.  The three guard
conditions are exhaustive and pairwise exclusive, so exactly one outcome
occurs per invocation.  (Stored durations are nonzero in every reachable
state, since pickups always install 10000, so set membership coincides with
the truthiness test the code performs.) -/
theorem death_resolution_trichotomy (c st : AppState)
    (hwf : ∀ j v, c.activePowerUps j = some v → v ≠ 0) :
    (((c.activePowerUps PowerUpType.SHIELD).isSome = true →
      (handleDeath c st).gameState = st.gameState ∧
      (handleDeath c st).isPhoenixMode = st.isPhoenixMode ∧
      (handleDeath c st).activePowerUps PowerUpType.SHIELD = none ∧
      (handleDeath c st).effects = st.effects ++ [Effect.explosion 50 c.playerY "#3b82f6"] ∧
      (handleDeath c st).scheduledTimers = st.scheduledTimers) ∧
    ((c.activePowerUps PowerUpType.SHIELD).isSome = false →
      ((c.activePowerUps PowerUpType.PHOENIX).isSome = true ∨ c.isPhoenixMode = false) →
      (handleDeath c st).gameState = GameState.PHOENIX_REVIVE ∧
      (handleDeath c st).isPhoenixMode = true ∧
      (handleDeath c st).scheduledTimers = st.scheduledTimers ++ [(1000, TimerEvent.revive)] ∧
      (runTimer TimerEvent.revive (handleDeath c st)).gameState = GameState.PLAYING ∧
      (runTimer TimerEvent.revive (handleDeath c st)).scheduledTimers =
        (handleDeath c st).scheduledTimers ++ [(5000, TimerEvent.clearPhoenix)] ∧
      (runTimer TimerEvent.clearPhoenix
        (runTimer TimerEvent.revive (handleDeath c st))).isPhoenixMode = false) ∧
    ((c.activePowerUps PowerUpType.SHIELD).isSome = false →
      (c.activePowerUps PowerUpType.PHOENIX).isSome = false → c.isPhoenixMode = true →
      (handleDeath c st).gameState = GameState.GAME_OVER ∧
      (handleDeath c st).highScore =
        (if c.score > c.highScore then c.score else st.highScore) ∧
      (handleDeath c st).activePowerUps = st.activePowerUps ∧
      (handleDeath c st).isPhoenixMode = st.isPhoenixMode)) ∧
    (((c.activePowerUps PowerUpType.SHIELD).isSome = true) ∨
      ((c.activePowerUps PowerUpType.SHIELD).isSome = false ∧
        ((c.activePowerUps PowerUpType.PHOENIX).isSome = true ∨ c.isPhoenixMode = false)) ∨
      ((c.activePowerUps PowerUpType.SHIELD).isSome = false ∧
        (c.activePowerUps PowerUpType.PHOENIX).isSome = false ∧ c.isPhoenixMode = true)) ∧
    ¬((c.activePowerUps PowerUpType.SHIELD).isSome = true ∧
      (c.activePowerUps PowerUpType.SHIELD).isSome = false) ∧
    ¬((((c.activePowerUps PowerUpType.PHOENIX).isSome = true ∨ c.isPhoenixMode = false)) ∧
      ((c.activePowerUps PowerUpType.PHOENIX).isSome = false ∧ c.isPhoenixMode = true)) := by
  have hjsS := jsTruthy_eq_isSome c.activePowerUps PowerUpType.SHIELD hwf
  have hjsP := jsTruthy_eq_isSome c.activePowerUps PowerUpType.PHOENIX hwf
  refine ⟨⟨?_, ?_, ?_⟩, ?_, ?_, ?_⟩
  · intro h1
    simp only [handleDeath, createExplosion]
    rw [if_pos (hjsS.trans h1)]
    refine ⟨rfl, rfl, by simp, rfl, rfl⟩
  · intro h1 h2
    have hcond : (jsTruthy (c.activePowerUps PowerUpType.PHOENIX) || !c.isPhoenixMode) = true := by
      rcases h2 with h2 | h2
      · simp [hjsP, h2]
      · simp [h2]
    simp only [handleDeath, createExplosion]
    rw [if_neg (by simp [hjsS, h1]), if_pos hcond]
    exact ⟨rfl, rfl, rfl, rfl, rfl, rfl⟩
  · intro h1 h2 h3
    simp only [handleDeath, createExplosion]
    rw [if_neg (by simp [hjsS, h1]), if_neg (by simp [hjsP, h2, h3])]
    exact ⟨rfl, rfl, rfl, rfl⟩
  · cases hS : (c.activePowerUps PowerUpType.SHIELD).isSome <;>
      cases hP : (c.activePowerUps PowerUpType.PHOENIX).isSome <;>
      cases hM : c.isPhoenixMode <;> simp
  · cases hS : (c.activePowerUps PowerUpType.SHIELD).isSome <;> simp
  · cases hP : (c.activePowerUps PowerUpType.PHOENIX).isSome <;>
      cases hM : c.isPhoenixMode <;> simp

/-- C1 witness: with SHIELD installed at duration 10000, death resolution
consumes the shield, emits the defensive effect, and leaves the life state
and phoenix mode untouched. -/
theorem death_resolution_trichotomy_witness :
    (handleDeath cW cW).gameState = cW.gameState ∧
    (handleDeath cW cW).isPhoenixMode = cW.isPhoenixMode ∧
    (handleDeath cW cW).activePowerUps PowerUpType.SHIELD = none ∧
    (handleDeath cW cW).effects = cW.effects ++ [Effect.explosion 50 cW.playerY "#3b82f6"] ∧
    (handleDeath cW cW).scheduledTimers = cW.scheduledTimers :=
  (death_resolution_trichotomy cW cW (by
    intro j v h
    have h2 : (if j = PowerUpType.SHIELD then some (10000 : ℚ) else none) = some v := h
    split at h2
    · simp only [Option.some.injEq] at h2
      rw [← h2]
      norm_num
    · exact absurd h2 (by simp))).1.1 rfl

/-- C2: For every tick taken while the life state is PLAYING, the committed
vertical position stays within [0, height - playerSize]: an out-of-bounds
integration candidate invokes death resolution and the previous valid
position is retained; an in-bounds candidate is committed. -/
theorem playing_tick_bounds (s : AppState) (env : Env) (t0 : ℚ)
    (hg : s.gameState = GameState.PLAYING) (hl : s.lastTime = some t0)
    (hb0 : 0 ≤ s.playerY) (hb1 : s.playerY ≤ s.dimensions.height - PLAYER_SIZE) :
    (0 ≤ (update s env).playerY ∧
      (update s env).playerY ≤ s.dimensions.height - PLAYER_SIZE) ∧
    ((s.playerY + s.playerVelocity * ((env.time - t0) / 16) < 0 ∨
        s.playerY + s.playerVelocity * ((env.time - t0) / 16) >
          s.dimensions.height - PLAYER_SIZE) →
      (update s env).playerY = s.playerY ∧
      playerPhase s ((env.time - t0) / 16) s =
        handleDeath s
          { s with playerVelocity := s.playerVelocity + GRAVITY * ((env.time - t0) / 16) }) ∧
    (¬(s.playerY + s.playerVelocity * ((env.time - t0) / 16) < 0 ∨
        s.playerY + s.playerVelocity * ((env.time - t0) / 16) >
          s.dimensions.height - PLAYER_SIZE) →
      (update s env).playerY = s.playerY + s.playerVelocity * ((env.time - t0) / 16)) := by
  have h1 : (update s env).playerY = (playerPhase s ((env.time - t0) / 16) s).playerY := by
    rw [update_run s env t0 hg hl]
    exact tickBody_playerY s env _
  rw [playerPhase_y s _ s] at h1
  refine ⟨?_, ?_, ?_⟩
  · rw [h1]
    split
    · exact ⟨hb0, hb1⟩
    · next h =>
        push_neg at h
        exact ⟨h.1, h.2⟩
  · intro hoob
    constructor
    · rw [h1, if_pos hoob]
    · simp only [playerPhase]
      rw [if_pos hoob]
  · intro hin
    rw [h1, if_neg hin]

/-- C2 witness: from the concrete PLAYING state at y = 400 in an 800-high
viewport, one tick commits a position still inside [0, 760]. -/
theorem playing_tick_bounds_witness :
    0 ≤ (update baseState baseEnv).playerY ∧
    (update baseState baseEnv).playerY ≤ baseState.dimensions.height - PLAYER_SIZE :=
  (playing_tick_bounds baseState baseEnv 0 rfl rfl
    (by norm_num [baseState]) (by norm_num [baseState, PLAYER_SIZE])).1

/-- C3 counterexample: from score 0, height 800, y = 400, velocity 0,
delta-time 1 and no boost, the post-tick state has velocity 0.4 but
y = 400 (not 400.4 as claimed): the position integration reads the
render-time velocity closure, not the freshly updated velocity. -/
theorem integration_example_counterexample :
    (update baseState baseEnv).playerVelocity = 0.4 ∧
    (update baseState baseEnv).playerY = 400 ∧
    (update baseState baseEnv).playerY ≠ 400.4 ∧
    (update baseState baseEnv).gameState = GameState.PLAYING := by
  norm_num [update, tickBody, playerPhase, handleDeath, createExplosion, projectilePhase,
    obstaclePhase, powerUpPhase, particlePhase, scorePhase, spawnBoss, challengeStep,
    jsSetAdd, jsSetDedup, dedupStep, bossPhase, shootPhase, spawnPhase, currentSpeedOf,
    jsTruthy, baseState, baseEnv, challenge1, GRAVITY, PLAYER_SIZE, GAME_SPEED_BASE,
    projStep, obsStep, puStep, newBoss, overlapPlayer, overlapBoss]

/-- C3 amended: one integration tick applies velocity += gravity x deltaTime,
but the position update uses the pre-tick (render-time closure) velocity:
position += oldVelocity x deltaTime, bounds-checked.  From score = 0,
height = 800, y = 400, velocity = 0, deltaTime = 1 and no boost, the
post-tick state therefore has velocity = 0.4 and y = 400 with no death. -/
theorem integration_uses_stale_velocity (s : AppState) (env : Env) (t0 : ℚ)
    (hg : s.gameState = GameState.PLAYING) (hl : s.lastTime = some t0) :
    (update s env).playerVelocity = s.playerVelocity + GRAVITY * ((env.time - t0) / 16) ∧
    (update s env).playerY =
      (if s.playerY + s.playerVelocity * ((env.time - t0) / 16) < 0 ∨
          s.playerY + s.playerVelocity * ((env.time - t0) / 16) >
            s.dimensions.height - PLAYER_SIZE then s.playerY
       else s.playerY + s.playerVelocity * ((env.time - t0) / 16)) := by
  constructor
  · rw [update_run s env t0 hg hl]
    exact tickBody_velocity s env _
  · rw [update_run s env t0 hg hl]
    exact (tickBody_playerY s env _).trans (playerPhase_y s _ s)

/-- C3 amended witness: the concrete example evaluated. -/
theorem integration_uses_stale_velocity_witness :
    (update baseState baseEnv).playerVelocity =
      baseState.playerVelocity + GRAVITY * ((baseEnv.time - 0) / 16) ∧
    (update baseState baseEnv).playerY =
      (if baseState.playerY + baseState.playerVelocity * ((baseEnv.time - 0) / 16) < 0 ∨
          baseState.playerY + baseState.playerVelocity * ((baseEnv.time - 0) / 16) >
            baseState.dimensions.height - PLAYER_SIZE then baseState.playerY
       else baseState.playerY + baseState.playerVelocity * ((baseEnv.time - 0) / 16)) :=
  integration_uses_stale_velocity baseState baseEnv 0 rfl rfl

/-- C4: paused ticks mutate nothing, but (contrary to the claim) the clock
adapter is never cleared: `startGame` leaves the stored timestamp in place,
and the first tick after a resume or restart computes its delta from the
pre-pause timestamp, so velocity jumps by gravity x 1000 simulated frames
after a 16-second pause (0.4 x (17000 - 1000) / 16 = 400). -/
theorem pause_resume_stale_delta_bug :
    update sPausedC4 baseEnv = sPausedC4 ∧
    (startGame sPausedC4).lastTime = some 1000 ∧
    (update (resumeGame sPausedC4) envResume).playerVelocity = 400 ∧
    (update (startGame sPausedC4) envResume).playerVelocity = 400 := by
  refine ⟨rfl, rfl, ?_, ?_⟩
  · norm_num [update, tickBody, playerPhase, handleDeath, createExplosion, projectilePhase,
      obstaclePhase, powerUpPhase, particlePhase, scorePhase, spawnBoss, challengeStep,
      jsSetAdd, jsSetDedup, dedupStep, bossPhase, shootPhase, spawnPhase, currentSpeedOf,
      jsTruthy, baseState, baseEnv, challenge1, GRAVITY, PLAYER_SIZE, GAME_SPEED_BASE,
      projStep, obsStep, puStep, newBoss, overlapPlayer, overlapBoss, sPausedC4, envResume,
      resumeGame]
  · norm_num [update, tickBody, playerPhase, handleDeath, createExplosion, projectilePhase,
      obstaclePhase, powerUpPhase, particlePhase, scorePhase, spawnBoss, challengeStep,
      jsSetAdd, jsSetDedup, dedupStep, bossPhase, shootPhase, spawnPhase, currentSpeedOf,
      jsTruthy, baseState, baseEnv, challenge1, GRAVITY, PLAYER_SIZE, GAME_SPEED_BASE,
      projStep, obsStep, puStep, newBoss, overlapPlayer, overlapBoss, sPausedC4, envResume,
      startGame]

/-- C5 counterexample: an overlapping SHIELD power-up installs the modifier
and emits the pickup effect, yet the power-up is NOT retired: the pool still
contains it (moved left) after the tick, contradicting removal-on-pickup. -/
theorem powerup_pickup_not_retired_counterexample :
    (update sC5 baseEnv).powerUps = [{ pw1 with x := 55 }] ∧
    (update sC5 baseEnv).activePowerUps PowerUpType.SHIELD = some 10000 ∧
    Effect.explosion 55 400 "#fbbf24" ∈ (update sC5 baseEnv).effects := by
  norm_num [update, tickBody, playerPhase, handleDeath, createExplosion, projectilePhase,
    obstaclePhase, powerUpPhase, particlePhase, scorePhase, spawnBoss, challengeStep,
    jsSetAdd, jsSetDedup, dedupStep, bossPhase, shootPhase, spawnPhase, currentSpeedOf,
    jsTruthy, baseState, baseEnv, challenge1, GRAVITY, PLAYER_SIZE, GAME_SPEED_BASE,
    projStep, obsStep, puStep, newBoss, overlapPlayer, overlapBoss, sC5, pw1]

/-- C5 amended: for every PowerUp whose bounding box overlaps the player
during a tick, the corresponding modifier entry is installed/refreshed with
duration 10000 and a pickup effect is emitted, but the PowerUp is NOT
removed on pickup: every power-up that survives the scroll-off filter
(moved x > -100) remains in the pool, so PowerUps are destroyed only on
scroll-off. -/
theorem powerup_pickup_installs_without_retire (s : AppState) (env : Env) (t0 : ℚ)
    (p : PowerUp)
    (hg : s.gameState = GameState.PLAYING) (hl : s.lastTime = some t0)
    (hp : p ∈ s.powerUps)
    (hx : ({ p with x := p.x - currentSpeedOf s * ((env.time - t0) / 16) }).x > -100) :
    ({ p with x := p.x - currentSpeedOf s * ((env.time - t0) / 16) }) ∈
      (update s env).powerUps ∧
    (overlapPlayer s.playerY (p.x - currentSpeedOf s * ((env.time - t0) / 16)) p.y
        p.width p.height →
      (update s env).activePowerUps p.type = some 10000 ∧
      Effect.explosion (p.x - currentSpeedOf s * ((env.time - t0) / 16)) p.y "#fbbf24" ∈
        (update s env).effects) := by
  have h := tickBody_pu s env ((env.time - t0) / 16) p hp hx
  rw [update_run s env t0 hg hl]
  exact ⟨h.1, fun hov => (h.2 hov)⟩

/-- C5 amended witness: the concrete pickup evaluated through the theorem. -/
theorem powerup_pickup_installs_without_retire_witness :
    ({ pw1 with x := pw1.x - currentSpeedOf sC5 * ((baseEnv.time - 0) / 16) }) ∈
      (update sC5 baseEnv).powerUps ∧
    ((update sC5 baseEnv).activePowerUps pw1.type = some 10000 ∧
      Effect.explosion (pw1.x - currentSpeedOf sC5 * ((baseEnv.time - 0) / 16)) pw1.y
        "#fbbf24" ∈ (update sC5 baseEnv).effects) :=
  have h := powerup_pickup_installs_without_retire sC5 baseEnv 0 pw1 rfl rfl
    (by simp [sC5]) (by norm_num [pw1, currentSpeedOf, sC5, baseState, baseEnv, GAME_SPEED_BASE])
  ⟨h.1, h.2 (by norm_num [overlapPlayer, pw1, currentSpeedOf, sC5, baseState, baseEnv,
    GAME_SPEED_BASE, PLAYER_SIZE])⟩

/-- C6: on a FIRE_WINGS overlap the code emits the explosion and skips death,
but never evicts the obstacle — its own comment defers the removal to a
filter that does not exist — so the obstacle survives the tick in the pool,
contradicting the claimed destruction.  (WIND_GLIDE pass-through and the
unguarded death call match the claim; the removal clause is the bug.) -/
theorem firewings_hit_keeps_obstacle_bug :
    (update sC6 baseEnv).obstacles = [{ ob1 with x := 55 }] ∧
    Effect.explosion 55 400 "#f97316" ∈ (update sC6 baseEnv).effects ∧
    (update sC6 baseEnv).gameState = GameState.PLAYING := by
  norm_num [update, tickBody, playerPhase, handleDeath, createExplosion, projectilePhase,
    obstaclePhase, powerUpPhase, particlePhase, scorePhase, spawnBoss, challengeStep,
    jsSetAdd, jsSetDedup, dedupStep, bossPhase, shootPhase, spawnPhase, currentSpeedOf,
    jsTruthy, baseState, baseEnv, challenge1, GRAVITY, PLAYER_SIZE, GAME_SPEED_BASE,
    projStep, obsStep, puStep, newBoss, overlapPlayer, overlapBoss, sC6, ob1, fwOnly]

/-- C7: when the incremented score crosses a 1000-multiple with no boss
active, the boss is spawned with health = maxHealth = 100 and active = true
and the obstacle pool is [] immediately after `spawnBoss` (and still at the
end of the tick when the spawn-controller trial fails); when the guard does
not hold (no crossing, or a boss already active), the score phase spawns
nothing.  At most one boss can exist at any time since the boss slot is a
single optional value. -/
theorem boss_spawn_spec (s : AppState) (env : Env) (t0 : ℚ) (st : AppState)
    (hg : s.gameState = GameState.PLAYING) (hl : s.lastTime = some t0) :
    (((s.score + 1) % 1000 = 0 ∧ s.boss = none) → env.doSpawnObstacle = false →
      (update s env).boss = some (newBoss s.dimensions) ∧
      (update s env).obstacles = [] ∧
      (newBoss s.dimensions).health = 100 ∧ (newBoss s.dimensions).maxHealth = 100 ∧
      (newBoss s.dimensions).active = true) ∧
    ((spawnBoss s st).boss = some (newBoss s.dimensions) ∧ (spawnBoss s st).obstacles = []) ∧
    (¬((st.score + 1) % 1000 = 0 ∧ s.boss = none) →
      (scorePhase s st).boss = st.boss ∧ (scorePhase s st).obstacles = st.obstacles) := by
  refine ⟨?_, ⟨rfl, rfl⟩, ?_⟩
  · rintro ⟨hcross, hnb⟩ hns
    have h := tickBody_spawn s env ((env.time - t0) / 16) hcross hnb hns
    rw [update_run s env t0 hg hl]
    exact ⟨h.1, h.2, rfl, rfl, rfl⟩
  · intro hng
    exact scorePhase_no_spawn s st hng

/-- C7 witness: score 999 crossing to 1000 with no boss spawns the fresh
boss and clears the obstacle pool. -/
theorem boss_spawn_spec_witness :
    (update sC7 baseEnv).boss = some (newBoss sC7.dimensions) ∧
    (update sC7 baseEnv).obstacles = [] ∧
    (newBoss sC7.dimensions).health = 100 ∧ (newBoss sC7.dimensions).maxHealth = 100 ∧
    (newBoss sC7.dimensions).active = true :=
  (boss_spawn_spec sC7 baseEnv 0 sC7 rfl rfl).1 ⟨by decide, rfl⟩ rfl

/-- C8: the tick maps each challenge through `chStep`; a completed challenge
is returned unchanged (so the completed flag and the clamped progress never
change again), progress is recomputed only when not completed and not in
phoenix mode (clamping to the target on completion), and skin unlocks go
through JavaScript-Set deduplication, so the unlocked-skin list only grows,
stays duplicate-free, and re-unlocking an already-unlocked skin is the
identity. -/
theorem challenge_monotonicity (s : AppState) (env : Env) (t0 : ℚ) (ch : Challenge)
    (ns : ℕ) (skins : List String) (r : String)
    (hg : s.gameState = GameState.PLAYING) (hl : s.lastTime = some t0) :
    (update s env).challenges = s.challenges.map (chStep s.isPhoenixMode (s.score + 1)) ∧
    (ch.completed = true → chStep s.isPhoenixMode ns ch = ch) ∧
    (s.isPhoenixMode = true → chStep s.isPhoenixMode ns ch = ch) ∧
    (ch.completed = false → s.isPhoenixMode = false → ((ns : ℚ) / 10) ≥ ch.target →
      chStep s.isPhoenixMode ns ch = { ch with progress := ch.target, completed := true }) ∧
    (ch.completed = false → s.isPhoenixMode = false → ¬(((ns : ℚ) / 10) ≥ ch.target) →
      chStep s.isPhoenixMode ns ch = { ch with progress := (ns : ℚ) / 10 }) ∧
    s.unlockedSkins ⊆ (update s env).unlockedSkins ∧
    (s.unlockedSkins.Nodup → (update s env).unlockedSkins.Nodup) ∧
    (skins.Nodup → jsSetAdd skins r = if r ∈ skins then skins else skins ++ [r]) := by
  refine ⟨?_, ?_, ?_, ?_, ?_, ?_, ?_, ?_⟩
  · rw [update_run s env t0 hg hl]
    exact tickBody_challenges s env _
  · exact fun h => chStep_completed _ _ _ h
  · intro h
    rw [h]
    exact chStep_phoenix _ _
  · intro h1 h2 h3
    rw [h2]
    exact chStep_active_complete _ _ h1 h3
  · intro h1 h2 h3
    rw [h2]
    exact chStep_active_partial _ _ h1 h3
  · rw [update_run s env t0 hg hl]
    exact (tickBody_skins s env _).1
  · intro h
    rw [update_run s env t0 hg hl]
    exact (tickBody_skins s env _).2 h
  · exact fun h => jsSetAdd_eq skins r h

/-- C8 witness: one concrete tick maps the initial challenge through
`chStep`, the skin list survives, and unlocking ICE over [DEFAULT] appends
without duplication. -/
theorem challenge_monotonicity_witness :
    (update baseState baseEnv).challenges =
      baseState.challenges.map (chStep baseState.isPhoenixMode (baseState.score + 1)) ∧
    baseState.unlockedSkins ⊆ (update baseState baseEnv).unlockedSkins ∧
    jsSetAdd ["DEFAULT"] "ICE" =
      (if "ICE" ∈ ["DEFAULT"] then ["DEFAULT"] else ["DEFAULT"] ++ ["ICE"]) :=
  have h := challenge_monotonicity baseState baseEnv 0 challenge1 1 ["DEFAULT"] "ICE" rfl rfl
  ⟨h.1, h.2.2.2.2.2.1, h.2.2.2.2.2.2.2 (by simp)⟩

/-- C9: active-modifier durations never decay: across one tick each
modifier entry is either unchanged, refreshed to the fixed pickup duration
10000, or — for SHIELD only — consumed by death resolution; `handleDeath`
never removes any other kind, restart resets the whole set, and a non-SHIELD
modifier that is active before a tick is still active after it, so
FIRE_WINGS, WIND_GLIDE and PHOENIX persist for the remainder of the run. -/
theorem modifier_no_decay (s : AppState) (env : Env) (t0 : ℚ) (k : PowerUpType)
    (c st s2 : AppState)
    (hg : s.gameState = GameState.PLAYING) (hl : s.lastTime = some t0) :
    ((update s env).activePowerUps k = s.activePowerUps k ∨
     (update s env).activePowerUps k = some 10000 ∨
     (k = PowerUpType.SHIELD ∧ (update s env).activePowerUps k = none)) ∧
    (k ≠ PowerUpType.SHIELD →
      (handleDeath c st).activePowerUps k = st.activePowerUps k) ∧
    (startGame s2).activePowerUps k = none ∧
    (k ≠ PowerUpType.SHIELD → jsTruthy (s.activePowerUps k) = true →
      jsTruthy ((update s env).activePowerUps k) = true) := by
  have hrel : apuRel k s (update s env) := by
    rw [update_run s env t0 hg hl]
    exact apuRel_congr rfl (tickBody_apuRel k s env _)
  refine ⟨hrel, fun hk => handleDeath_apu_frame c st k hk, rfl, ?_⟩
  intro hk ht
  rcases hrel with h | h | ⟨hks, _⟩
  · rw [h]
    exact ht
  · rw [h]
    norm_num [jsTruthy]
  · exact absurd hks hk

/-- C9 witness: a FIRE_WINGS modifier active before a quiet tick is still
active after it, and restart empties the modifier set. -/
theorem modifier_no_decay_witness :
    ((update sC6 baseEnv).activePowerUps PowerUpType.FIRE_WINGS =
        sC6.activePowerUps PowerUpType.FIRE_WINGS ∨
      (update sC6 baseEnv).activePowerUps PowerUpType.FIRE_WINGS = some 10000 ∨
      (PowerUpType.FIRE_WINGS = PowerUpType.SHIELD ∧
        (update sC6 baseEnv).activePowerUps PowerUpType.FIRE_WINGS = none)) ∧
    (startGame baseState).activePowerUps PowerUpType.FIRE_WINGS = none ∧
    jsTruthy ((update sC6 baseEnv).activePowerUps PowerUpType.FIRE_WINGS) = true :=
  have h := modifier_no_decay sC6 baseEnv 0 PowerUpType.FIRE_WINGS sC6 sC6 baseState rfl rfl
  ⟨h.1, h.2.2.1, h.2.2.2 (by decide) (by norm_num [jsTruthy, sC6, baseState, fwOnly])⟩

/-- C10: restart resets exactly the per-run state — score 0, player at
mid-height with zero velocity, all four entity pools empty, the modifier
set empty, phoenix mode off, boss absent — and enters PLAYING, while
leaving the best score, the unlocked-skin set, the challenge list, and the
selected skin unchanged. -/
theorem restart_frame (s : AppState) (k : PowerUpType) :
    (startGame s).score = 0 ∧
    (startGame s).playerY = s.dimensions.height / 2 ∧
    (startGame s).playerVelocity = 0 ∧
    (startGame s).obstacles = [] ∧
    (startGame s).powerUps = [] ∧
    (startGame s).particles = [] ∧
    (startGame s).projectiles = [] ∧
    (startGame s).activePowerUps k = none ∧
    (startGame s).isPhoenixMode = false ∧
    (startGame s).boss = none ∧
    (startGame s).gameState = GameState.PLAYING ∧
    (startGame s).highScore = s.highScore ∧
    (startGame s).unlockedSkins = s.unlockedSkins ∧
    (startGame s).challenges = s.challenges ∧
    (startGame s).currentSkin = s.currentSkin :=
  ⟨rfl, rfl, rfl, rfl, rfl, rfl, rfl, rfl, rfl, rfl, rfl, rfl, rfl, rfl, rfl⟩

end SkyRebel
